import Mathlib

/-!
Verification of the GreenFiveInnings backend (brianzzs/GreenFiveInnings).

Shallow embedding of the fetch-and-aggregate pipeline:
  * `app/utils/calculations.py`   — pure percentage calculations
  * `app/services/game_service.py` — batch fetcher and stats aggregator
  * `app/services/schedule_service.py` — game-window resolver
  * `app/services/comparison_service.py` — comparison orchestrator
  * `app/api/schedule.py`         — team-stats HTTP route

Conventions of the embedding:
  * Python dicts with optional keys become structures with `Option` fields;
    `d.get(k, default)` becomes `field.getD default`.
  * Calendar dates become integers (day numbers); the upstream client's
    date-string formatting is injective on dates, so day numbers are used
    directly as request keys.
  * Remote calls become explicit environment functions returning
    `Except String α`; a raised exception is `.error msg`.
  * The process-wide caches become explicit association lists threaded
    through the functions; remote fetches actually issued are recorded in
    an explicit trace list so that cache claims are statable.
  * `asyncio.gather` without `return_exceptions` is modelled as sequential
    effect composition that aborts on the first `.error` (observationally
    the same: one raised task makes the whole gather raise).
  * Python float percentages become `ℚ`.
-/

/-! ## Data model: game documents (`GameDocument` of the spec) -/

/-- One entry of `liveData.linescore.innings`: the run counts of the two
half-innings; `none` models an absent `runs` key. -/
structure Inning where
  away : Option Int
  home : Option Int
  deriving DecidableEq, Inhabited

/-- `liveData.linescore.teams.{away,home}.runs` (full-game totals). -/
structure LinescoreTeams where
  awayRuns : Option Int
  homeRuns : Option Int
  deriving DecidableEq, Inhabited

/-- `liveData.linescore`. -/
structure Linescore where
  innings : List Inning
  teams : LinescoreTeams
  deriving DecidableEq, Inhabited

/-- A player entry of `boxscore.teams.<side>.players` (`ID<pid>` keyed). -/
structure PlayerDetail where
  fullName : Option String
  positionAbbreviation : Option String
  battingAvg : Option String
  deriving DecidableEq, Inhabited

/-- `liveData.boxscore.teams.<side>`. -/
structure BoxTeam where
  battingOrder : List Int
  players : List (Int × PlayerDetail)
  deriving DecidableEq, Inhabited

/-- `liveData.boxscore`. -/
structure Boxscore where
  away : Option BoxTeam
  home : Option BoxTeam
  deriving DecidableEq, Inhabited

/-- `liveData`. -/
structure LiveData where
  linescore : Option Linescore
  boxscore : Option Boxscore
  deriving DecidableEq, Inhabited

/-- `gameData.teams.<side>` (with the league record used by the
comparison orchestrator). -/
structure TeamSide where
  id : Option Int
  name : Option String
  recordWins : Option Int
  recordLosses : Option Int
  deriving DecidableEq, Inhabited

/-- A probable pitcher entry of `gameData.probablePitchers`. -/
structure Pitcher where
  fullName : Option String
  pid : Option Int
  deriving DecidableEq, Inhabited

/-- `gameData`. -/
structure GameData where
  pk : Option Int
  away : TeamSide
  home : TeamSide
  originalDate : Option String
  officialDate : Option String
  dateTime : Option String
  venueName : Option String
  abstractGameState : Option String
  awayProbablePitcher : Option Pitcher
  homeProbablePitcher : Option Pitcher
  deriving DecidableEq, Inhabited

/-- A fetched game document.  `none` in a field models that the
corresponding top-level key is absent or empty (falsy in Python). -/
structure GameDoc where
  gameData : Option GameData
  liveData : Option LiveData
  deriving DecidableEq, Inhabited

/-- Python truthiness of `d.get('id')` for an integer id:
absent (`None`) and `0` are falsy. -/
def truthyId : Option Int → Bool
  | none => false
  | some v => v ≠ 0

/-! ## `app/utils/calculations.py` -/

/-- `TEAM_NAMES` from `app/utils/calculations.py`. -/
def TEAM_NAMES : List (Int × String) :=
  [(109, "ARI D-backs"), (144, "ATL Braves"), (110, "BAL Orioles"),
   (111, "BOS Red Sox"), (112, "CHC Cubs"), (113, "CIN Reds"),
   (114, "CLE Guardians"), (115, "COL Rockies"), (116, "DET Tigers"),
   (117, "HOU Astros"), (118, "KC Royals"), (108, "LAA Angels"),
   (119, "LAD Dodgers"), (146, "MIA Marlins"), (158, "MIL Brewers"),
   (142, "MIN Twins"), (121, "NYM Mets"), (147, "NYY Yankees"),
   (133, "OAK Athletics"), (143, "PHI Phillies"), (134, "PIT Pirates"),
   (135, "SD Padres"), (136, "SEA Mariners"), (137, "SF Giants"),
   (138, "STL Cardinals"), (139, "TB Rays"), (140, "TEX Rangers"),
   (141, "TOR Blue Jays"), (145, "CWS White Sox"), (120, "WSH Nationals")]

/-- `TEAM_NAMES.get(id, default)`. -/
def teamNameD (tid : Option Int) (dflt : String) : String :=
  match tid with
  | none => dflt
  | some t => ((TEAM_NAMES.lookup t).getD dflt)

/-- One element of the `results` list passed to
`calculate_win_percentage`: a dict that may miss any of the keys the
function checks for (`home_team` / `away_team` / their `id` and
`total_runs`).  A missing key is `none`. -/
structure MLGameRaw where
  home_id : Option Int
  away_id : Option Int
  home_total : Option Int
  away_total : Option Int
  deriving DecidableEq, Inhabited

/-- The per-game key-presence check at the top of
`calculate_win_percentage` (`'home_team' not in game or ...`). -/
def mlValid (g : MLGameRaw) : Bool :=
  g.home_id.isSome && g.away_id.isSome && g.home_total.isSome && g.away_total.isSome

/-- The accumulating loop of `calculate_win_percentage`: returns
`(wins, valid_games)` after folding the whole list, starting from the
given accumulator. -/
def winLoop (teamId : Int) (acc : Nat × Nat) : List MLGameRaw → Nat × Nat
  | [] => acc
  | g :: rest =>
    if mlValid g then
      let homeRuns := g.home_total.getD 0
      let awayRuns := g.away_total.getD 0
      let isHome := g.home_id == some teamId
      let isAway := g.away_id == some teamId
      let win : Nat :=
        if isHome && decide (homeRuns > awayRuns) then 1
        else if isAway && decide (awayRuns > homeRuns) then 1
        else 0
      winLoop teamId (acc.1 + win, acc.2 + 1) rest
    else
      winLoop teamId acc rest

/-- `calculate_win_percentage(results, team_id)` from
`app/utils/calculations.py`. -/
def calculate_win_percentage (results : List MLGameRaw) (teamId : Int) : ℚ :=
  if results = [] then 0
  else
    let wv := winLoop teamId (0, 0) results
    if wv.2 > 0 then (wv.1 : ℚ) / (wv.2 : ℚ) * 100 else 0

/-! ## Memo cache and batch fetcher (`app/services/game_service.py`) -/

/-- Modelled from the spec: `GAME_CACHE` is imported in
`game_service.py` from a root-level `cache` module that is not present
under `src/` (the `src/cache.py` present is an older sqlite helper that
does not define it).  Per spec §2, the Memo Cache is a "process-wide,
unbounded-for-session key→value store ... No invalidation; lives for
process lifetime" — i.e. a plain mutable mapping, modelled as an
association list from game id to the cached fetch result (which may be
Python `None`, hence `Option GameDoc`). -/
def GameCache : Type := List (Int × Option GameDoc)

/-- Cache membership (`game_id in GAME_CACHE`). -/
def cacheHas (c : GameCache) (gid : Int) : Bool :=
  (List.lookup gid c).isSome

/-- Cache read (`GAME_CACHE[game_id]`, defaulting only for totality:
callers guard with `cacheHas`). -/
def cacheGet (c : GameCache) (gid : Int) : Option GameDoc :=
  (List.lookup gid c).getD none

/-- Cache write (`GAME_CACHE[game_id] = game_data`). -/
def cachePut (c : GameCache) (gid : Int) (d : Option GameDoc) : GameCache :=
  (gid, d) :: c

/-- The remote fetch `mlb_stats_client.get_game_data_async`: an
environment function; `.error` models a raised exception, `.ok none`
models a `None` return value. -/
def FetchEnv : Type := Int → Except String (Option GameDoc)

/-- `fetch_single_game_details(game_id)`: cache hit short-circuits,
otherwise fetch and store.  Returns the value, the updated cache, and
the list of game ids for which a remote fetch was actually issued. -/
def fetch_single_game_details (env : FetchEnv) (c : GameCache) (gid : Int) :
    Except String (Option GameDoc × GameCache × List Int) :=
  if cacheHas c gid then
    .ok (cacheGet c gid, c, [])
  else
    match env gid with
    | .error e => .error e
    | .ok d => .ok (d, cachePut c gid d, [gid])

/-- The `asyncio.gather` over `fetch_single_game_details` tasks in
`fetch_game_details_batch`: effect composition that aborts on the first
raised exception (gather without `return_exceptions` re-raises). -/
def gatherDetails (env : FetchEnv) (c : GameCache) :
    List Int → Except String (List (Option GameDoc) × GameCache × List Int)
  | [] => .ok ([], c, [])
  | gid :: rest =>
    match fetch_single_game_details env c gid with
    | .error e => .error e
    | .ok (d, c', tr) =>
      match gatherDetails env c' rest with
      | .error e => .error e
      | .ok (ds, c'', tr') => .ok (d :: ds, c'', tr ++ tr')

/-- `fetch_game_details_batch(game_ids)`: gather, then drop `None`
results (`[res for res in results if res is not None]`). -/
def fetch_game_details_batch (env : FetchEnv) (c : GameCache) (gameIds : List Int) :
    Except String (List GameDoc × GameCache × List Int) :=
  match gatherDetails env c gameIds with
  | .error e => .error e
  | .ok (ds, c', tr) => .ok (ds.filterMap id, c', tr)

/-! ## Stats aggregator (`get_team_stats_summary`, lines 86-292) -/

/-- The per-team block of one entry of the detailed `results` list. -/
structure ResultTeam where
  id : Option Int
  name : String
  runs : List (Option Int)
  total_runs : Int
  full_game_runs : Option Int
  pitcherName : String
  pitcherId : Option Int
  pitcherHand : String
  deriving DecidableEq, Inhabited

/-- One entry of the detailed `results` list. -/
structure GameResult where
  game_date : String
  game_pk : Option Int
  away_team : ResultTeam
  home_team : ResultTeam
  deriving DecidableEq, Inhabited

/-- The `TeamStatsSummary` dict.  `error = none` on non-exception paths
(the `"error"` key is only present in the top-level handler's return). -/
structure Summary where
  games_analyzed : Nat
  nrfi : ℚ
  game_nrfi_percentage : ℚ
  win_percentage_f5 : ℚ
  over1_5F5 : ℚ
  over2_5F5 : ℚ
  results : List GameResult
  error : Option String
  deriving DecidableEq, Inhabited

/-- The all-zero summary returned on the two empty-sample early returns. -/
def emptySummary : Summary :=
  { games_analyzed := 0, nrfi := 0, game_nrfi_percentage := 0,
    win_percentage_f5 := 0, over1_5F5 := 0, over2_5F5 := 0,
    results := [], error := none }

/-- The summary returned by the top-level `except` handler. -/
def errorSummary (e : String) : Summary :=
  { emptySummary with error := some e }

/-- What one processed (non-skipped) game contributes to the
accumulating lists of the aggregation loop. -/
structure PerGame where
  gameNrfi : Option Bool
  teamNrfi : Option Bool
  teamRunsF5 : Option Int
  moneyline : Option MLGameRaw
  detail : GameResult
  deriving DecidableEq, Inhabited

/-- The F5 team-run accumulation (`team_runs_f5` / `runs_found_f5`):
returns the running sum and whether any inning reported a count. -/
def f5SideSum (side : Inning → Option Int) (f5 : List Inning) : Int × Bool :=
  f5.foldl (fun acc inn =>
    match side inn with
    | some r => (acc.1 + r, true)
    | none => acc) (0, false)

/-- The padded per-inning F5 run list (`[None]*5` overwritten at the
indices the boxscore provides). -/
def f5RunList (side : Inning → Option Int) (f5 : List Inning) : List (Option Int) :=
  (List.range 5).map (fun i => (f5.get? i).bind side)

/-- The body of the aggregation loop for one element of
`valid_game_details` (lines 126-238): `none` means the game was skipped
by a `continue` (missing/empty linescore innings, or a falsy team id),
`some` carries everything the game appends to the accumulators. -/
def processGame (teamId : Int) (g : GameDoc) : Option PerGame :=
  let gameData := g.gameData.getD default
  let gamePk := gameData.pk
  let liveData := g.liveData.getD default
  match liveData.linescore with
  | none => none
  | some linescore =>
    if linescore.innings = [] then none
    else
      let awayTeamData := gameData.away
      let homeTeamData := gameData.home
      let awayPitcher := gameData.awayProbablePitcher.getD { fullName := some "TBD", pid := none }
      let homePitcher := gameData.homeProbablePitcher.getD { fullName := some "TBD", pid := none }
      if ¬ truthyId awayTeamData.id ∨ ¬ truthyId homeTeamData.id then none
      else
        let isHome := homeTeamData.id == some teamId
        let fullAwayRuns := linescore.teams.awayRuns
        let fullHomeRuns := linescore.teams.homeRuns
        let firstInning := linescore.innings.headD default
        let nrfiPair : Option (Bool × Bool) :=
          match firstInning.home, firstInning.away with
          | some fh, some fa =>
            some (decide (fh = 0 ∧ fa = 0), if isHome then decide (fh = 0) else decide (fa = 0))
          | _, _ => none
        let f5 := linescore.innings.take 5
        let teamF5 := f5SideSum (fun inn => if isHome then inn.home else inn.away) f5
        let awayF5 := f5SideSum (·.away) f5
        let homeF5 := f5SideSum (·.home) f5
        let moneyline : Option MLGameRaw :=
          if awayF5.2 && homeF5.2 then
            some { home_id := homeTeamData.id, away_id := awayTeamData.id,
                   home_total := some homeF5.1, away_total := some awayF5.1 }
          else none
        some {
          gameNrfi := nrfiPair.map (·.1)
          teamNrfi := nrfiPair.map (·.2)
          teamRunsF5 := if teamF5.2 then some teamF5.1 else none
          moneyline := moneyline
          detail := {
            game_date := gameData.originalDate.getD "TBD"
            game_pk := gamePk
            away_team := {
              id := awayTeamData.id
              name := teamNameD awayTeamData.id "TBD"
              runs := f5RunList (·.away) f5
              total_runs := awayF5.1
              full_game_runs := fullAwayRuns
              pitcherName := awayPitcher.fullName.getD "TBD"
              pitcherId := awayPitcher.pid
              pitcherHand := "TBD" }
            home_team := {
              id := homeTeamData.id
              name := teamNameD homeTeamData.id "TBD"
              runs := f5RunList (·.home) f5
              total_runs := homeF5.1
              full_game_runs := fullHomeRuns
              pitcherName := homePitcher.fullName.getD "TBD"
              pitcherId := homePitcher.pid
              pitcherHand := "TBD" } } }

/-- `round(x, 2)`. -/
def round2 (q : ℚ) : ℚ := (round (q * 100) : ℤ) / 100

/-- Stable descending insertion by key (Python's
`list.sort(key=..., reverse=True)` is stable; insertion from the right
preserves the original order of equal keys). -/
def insertDescBy {α : Type} (key : α → String) (x : α) : List α → List α
  | [] => [x]
  | y :: ys => if key y < key x then x :: y :: ys else y :: insertDescBy key x ys

/-- Stable descending sort by a string key. -/
def sortDescBy {α : Type} (key : α → String) : List α → List α
  | [] => []
  | x :: xs => insertDescBy key x (sortDescBy key xs)

/-- `detailed_game_results.sort(key=lambda x: x.get('game_date', '0000-00-00'), reverse=True)`. -/
def sortResultsByDateDesc : List GameResult → List GameResult :=
  sortDescBy (·.game_date)

/-- `sum(1 for ...) / len(...) * 100 if list else 0.0`. -/
def pctOf (count total : Nat) : ℚ :=
  if total = 0 then 0 else (count : ℚ) / (total : ℚ) * 100

/-- The aggregation core of `get_team_stats_summary` applied to
`valid_game_details` (lines 119-277): the per-game loop, the four
percentage computations, the win-percentage call, the final sort and the
summary dict. -/
def summarizeDocs (validGameDetails : List GameDoc) (teamId : Int) : Summary :=
  let processed := validGameDetails.filterMap (processGame teamId)
  let gameNrfiList := processed.filterMap (·.gameNrfi)
  let teamNrfiList := processed.filterMap (·.teamNrfi)
  let teamRunsF5List := processed.filterMap (·.teamRunsF5)
  let moneylineResults := processed.filterMap (·.moneyline)
  let detailedGameResults := processed.map (·.detail)
  let gameNrfiPct := pctOf (gameNrfiList.count true) gameNrfiList.length
  let teamNrfiPct := pctOf (teamNrfiList.count true) teamNrfiList.length
  let over15 := pctOf (teamRunsF5List.countP (fun r => decide ((3 : ℚ) / 2 ≤ (r : ℚ)))) teamRunsF5List.length
  let over25 := pctOf (teamRunsF5List.countP (fun r => decide ((5 : ℚ) / 2 ≤ (r : ℚ)))) teamRunsF5List.length
  let winPctF5 := calculate_win_percentage moneylineResults teamId
  { games_analyzed := processed.length
    nrfi := round2 teamNrfiPct
    game_nrfi_percentage := round2 gameNrfiPct
    win_percentage_f5 := round2 winPctF5
    over1_5F5 := round2 over15
    over2_5F5 := round2 over25
    results := sortResultsByDateDesc detailedGameResults
    error := none }

/-- The validity gate over fetched documents (line 104:
`gd and gd.get("gameData") and gd.get("liveData")`). -/
def validDoc (g : GameDoc) : Bool :=
  g.gameData.isSome && g.liveData.isSome

/-! ## Game window resolver (`app/services/schedule_service.py`) -/

/-- One entry of a schedule listing returned by
`mlb_stats_client.get_schedule_async`.  `game_datetime` is kept total:
the source indexes `game['game_datetime']` directly, and no claim
depends on a malformed entry missing that key. -/
structure SchedGame where
  game_id : Option Int
  status : Option String
  game_type : Option String
  game_datetime : String
  deriving DecidableEq, Inhabited

/-- The remote schedule query for one date range `(start_date, end_date)`
(team id fixed by the caller); `.error` models a raised exception. -/
def SchedEnv : Type := Int → Int → Except String (List SchedGame)

/-- The terminal game statuses. -/
def terminalStatuses : List String := ["Final", "Game Over", "Completed Early"]

/-- The filter of `fetch_last_n_completed_game_ids`:
`game_status in ["Final", "Game Over", "Completed Early"] and
game_type in ['R', 'S'] and game.get('game_id')`. -/
def isCompletedRS (g : SchedGame) : Bool :=
  (match g.status with | some s => decide (s ∈ terminalStatuses) | none => false)
  && (match g.game_type with | some t => decide (t = "R" ∨ t = "S") | none => false)
  && truthyId g.game_id

/-- The inner `for game in schedule_chunk` accumulation, deduplicating by
game id (`game['game_id'] not in [g['game_id'] for g in completed_games]`).
Entries are `(game_id, game_datetime)` pairs. -/
def accumChunk (completed : List (Int × String)) : List SchedGame → List (Int × String)
  | [] => completed
  | g :: rest =>
    if isCompletedRS g && decide ((g.game_id.getD 0) ∉ completed.map (·.1)) then
      accumChunk (completed ++ [(g.game_id.getD 0, g.game_datetime)]) rest
    else
      accumChunk completed rest

/-- The mutable state of the backward-walk loop of
`fetch_last_n_completed_game_ids`. -/
structure WalkState where
  completed : List (Int × String)
  endDate : Int
  totalDaysChecked : Int
  deriving DecidableEq, Inhabited

/-- The walk's output, instrumented with the list of date ranges
actually requested from the remote source (in request order). -/
structure WalkOut where
  ids : List Int
  ranges : List (Int × Int)
  deriving DecidableEq, Inhabited

/-- `return [game['game_id'] for game in completed_games[:num_games]]`. -/
def finalizeWalk (numGames : Nat) (s : WalkState) : List Int :=
  (s.completed.take numGames).map (·.1)

/-- The `while` loop of `fetch_last_n_completed_game_ids` (lines
373-407), fuel-indexed.  One iteration: compute the 15-day window
`[start, end]`, break on the degenerate same-day guard, request the
chunk (recorded in `ranges`), on error break, otherwise accumulate the
completed R/S games, sort by datetime descending, and move the window
to end the day before `start`.  Out of fuel returns the same value as a
loop exit; `walkAux_fuel_stable` below shows the chosen initial fuel is
enough, so the fuel cutoff is never the reason the walk stops. -/
def walkAux (env : SchedEnv) (ystart : Int) (numGames : Nat) :
    Nat → WalkState → WalkOut
  | fuel, s =>
    if s.completed.length < numGames ∧ ystart ≤ s.endDate then
      match fuel with
      | 0 => { ids := finalizeWalk numGames s, ranges := [] }
      | fuel + 1 =>
        let start := max (s.endDate - (15 - 1)) ystart
        if start = s.endDate ∧ s.totalDaysChecked > 0 then
          { ids := finalizeWalk numGames s, ranges := [] }
        else
          match env start s.endDate with
          | .error _ => { ids := finalizeWalk numGames s, ranges := [(start, s.endDate)] }
          | .ok chunk =>
            let completed' := sortDescBy (·.2) (accumChunk s.completed chunk)
            let endDate' := start - 1
            let s' : WalkState :=
              { completed := completed', endDate := endDate',
                totalDaysChecked := s.totalDaysChecked + (endDate' - start) + 1 }
            let out := walkAux env ystart numGames fuel s'
            { ids := out.ids, ranges := (start, s.endDate) :: out.ranges }
    else
      { ids := finalizeWalk numGames s, ranges := [] }

/-- Fuel sufficient for the walk from state `s`: one unit per remaining
day above the season start, plus slack. -/
def walkMeasure (ystart : Int) (s : WalkState) : Nat :=
  (s.endDate - ystart + 2).toNat

/-- `fetch_last_n_completed_game_ids(team_id, num_games)`:
`today` is `datetime.date.today()`, `ystart` is January 1st of the
current year.  A falsy `team_id` (`None`/`0`) returns `[]` at once. -/
def fetch_last_n_completed_game_ids (env : SchedEnv) (teamId : Int)
    (today ystart : Int) (numGames : Nat) : WalkOut :=
  if teamId = 0 then { ids := [], ranges := [] }
  else
    let s0 : WalkState := { completed := [], endDate := today, totalDaysChecked := 0 }
    walkAux env ystart numGames (walkMeasure ystart s0) s0

/-- Schedule cache of `fetch_and_cache_game_ids_span`, keyed by
`f"{team_id}_{num_days}"`, i.e. by the pair `(team_id, num_days)`. -/
def ScheduleCache : Type := List ((Int × Option Int) × List SchedGame)

/-- The date-chunking loop of `fetch_and_cache_game_ids_span` (lines
44-54): 5-day chunks `[current, min(current+4, base)]` walking forward
to `base`. -/
def chunkDatesGo (base : Int) : Nat → Int → List (Int × Int)
  | 0, _ => []
  | fuel + 1, current =>
    if current ≤ base then
      let endDate := min (current + 4) base
      (current, endDate) :: chunkDatesGo base fuel (endDate + 1)
    else []

/-- Entry point for the chunking loop with exactly enough fuel: the loop
covers at least one day per iteration, so `base + 1 - current` days of
fuel always outlast it (the fuel case of `chunkDatesGo` is never the
reason it stops). -/
def chunkDates (base : Int) (current : Int) : List (Int × Int) :=
  chunkDatesGo base (base + 1 - current).toNat current

/-- The `asyncio.gather` over the per-chunk `fetch_schedule` tasks
(line 58): aborts on the first raised exception, otherwise concatenates
the chunks in submission order. -/
def gatherChunks (env : SchedEnv) : List (Int × Int) → Except String (List SchedGame)
  | [] => .ok []
  | c :: rest =>
    match env c.1 c.2 with
    | .error e => .error e
    | .ok gs =>
      match gatherChunks env rest with
      | .error e => .error e
      | .ok rs => .ok (gs ++ rs)

/-- `[game["game_id"] for game in games]` with a direct key index:
a missing key raises `KeyError`. -/
def idsOfGames : List SchedGame → Except String (List Int)
  | [] => .ok []
  | g :: rest =>
    match g.game_id with
    | none => .error "KeyError: game_id"
    | some gid =>
      match idsOfGames rest with
      | .error e => .error e
      | .ok rs => .ok (gid :: rs)

/-- `fetch_and_cache_game_ids_span(team_id, num_days)` (lines 24-67):
check the schedule cache, otherwise partition `[base - num_days, base]`
(base = yesterday) into 5-day chunks, gather all chunk requests, cache
the concatenation and return the game ids.  With `num_days = None` a
single one-day request for `base` is issued. -/
def fetch_and_cache_game_ids_span (env : SchedEnv) (cache : ScheduleCache)
    (teamId : Int) (numDays : Option Int) (today : Int) :
    Except String (List Int × ScheduleCache) :=
  let key := (teamId, numDays)
  match List.lookup key cache with
  | some games =>
    match idsOfGames games with
    | .error e => .error e
    | .ok ids => .ok (ids, cache)
  | none =>
    let base := today - 1
    let fetched : Except String (List SchedGame) :=
      match numDays with
      | some n => gatherChunks env (chunkDates base (base - n))
      | none => env base base
    match fetched with
    | .error e => .error e
    | .ok allGames =>
      let cache' := (key, allGames) :: cache
      match idsOfGames allGames with
      | .error e => .error e
      | .ok ids => .ok (ids, cache')

/-! ## Full stats summary pipeline (`get_team_stats_summary`) -/

/-- `get_team_stats_summary(team_id, num_games)` (lines 86-292):
resolve the last-N-completed window, early-return the all-zero summary
when no ids are found, batch-fetch the documents, keep the ones passing
the validity gate, early-return the all-zero summary when none passes,
otherwise aggregate; a raised exception anywhere inside is converted by
the top-level handler into a summary carrying an `error` field.
(The game-cache state on the raising path is returned as it was at
entry; no claim observes the cache of a failed call.) -/
def get_team_stats_summary (sched : SchedEnv) (fetchEnv : FetchEnv)
    (today ystart : Int) (c : GameCache) (teamId : Int) (numGames : Nat) :
    Summary × GameCache :=
  let gameIds := (fetch_last_n_completed_game_ids sched teamId today ystart numGames).ids
  if gameIds = [] then (emptySummary, c)
  else
    match fetch_game_details_batch fetchEnv c gameIds with
    | .error e => (errorSummary e, c)
    | .ok (gameDetails, c', _) =>
      let validGameDetails := gameDetails.filter validDoc
      if validGameDetails = [] then (emptySummary, c')
      else (summarizeDocs validGameDetails teamId, c')

/-! ## Comparison orchestrator (`app/services/comparison_service.py`) -/

/-- The `team_key` argument (`'away'` / `'home'`). -/
inductive Side
  | away
  | home
  deriving DecidableEq

/-- One formatted lineup entry built by `_extract_lineup`. -/
structure LineupEntry where
  id : Int
  name : String
  position : String
  avg : String
  deriving DecidableEq, Inhabited

/-- `player_info.get(f'ID{player_id}', {})`. -/
def lookupPlayerDetail (players : List (Int × PlayerDetail)) (pid : Int) : PlayerDetail :=
  (List.lookup pid players).getD default

/-- `_extract_lineup(boxscore_data, team_key)` (lines 8-34): `none` when
no batting order is present or no entry carries a real position. -/
def extract_lineup (box : Option Boxscore) (side : Side) : Option (List LineupEntry) :=
  let teamData : BoxTeam :=
    (box.bind (fun b => match side with | .away => b.away | .home => b.home)).getD
      { battingOrder := [], players := [] }
  if teamData.battingOrder = [] then none
  else
    let lineup := teamData.battingOrder.filterMap (fun pid =>
      let pd := lookupPlayerDetail teamData.players pid
      let position := pd.positionAbbreviation.getD "N/A"
      if position ≠ "N/A" then
        some { id := pid, name := pd.fullName.getD "Unknown",
               position := position, avg := pd.battingAvg.getD "N/A" }
      else none)
    if lineup = [] then none else some lineup

/-- The dict returned by `player_service.fetch_and_cache_pitcher_info`:
pitcher ids are `none` for `"TBD"`/missing. -/
structure PitcherDetails where
  awayPitcherID : Option Int
  homePitcherID : Option Int
  awayPitcherName : Option String
  homePitcherName : Option String
  awayPitcherHand : Option String
  homePitcherHand : Option String
  deriving DecidableEq, Inhabited

/-- A non-empty stats sub-dict that may carry an `era` key. -/
structure EraBlock where
  era : Option String
  deriving DecidableEq, Inhabited

/-- The player-stats blob consumed by `get_era_from_data`:
`p_data.get("pitching_stats", {}).get("season", {})` and
`p_data.get("season_stats", {})`; `none` models an absent or empty
(falsy) sub-dict. -/
structure PStats where
  pitchingSeason : Option EraBlock
  seasonStats : Option EraBlock
  deriving DecidableEq, Inhabited

/-- The inner helper `get_era_from_data` (lines 117-123): exceptions and
`{"error": ...}` values give `"N/A"`; otherwise the `pitching_stats.season`
dict if truthy, else `season_stats`, then `.get("era", "N/A")`. -/
def get_era_from_data (d : Except String PStats) : String :=
  match d with
  | .error _ => "N/A"
  | .ok p =>
    match p.pitchingSeason with
    | some blk => blk.era.getD "N/A"
    | none =>
      match p.seasonStats with
      | some blk => blk.era.getD "N/A"
      | none => "N/A"

/-- An opaque head-to-head stat blob (its contents are carried through
untouched by the orchestrator). -/
structure H2HStats where
  pa : Option Int
  deriving DecidableEq, Inhabited

/-- The `h2h_stats` value attached to one lineup player after the join:
a fetched blob, a per-player error marker, or the `{"PA": "N/A"}`
default used when no lookup was launched. -/
inductive H2HRes
  | stats (h : H2HStats)
  | fetchError (msg : String)
  | defaultNA
  deriving DecidableEq

/-- The environment of `get_game_comparison`: the remote/game-service
calls it launches.  Each is an `Except` since the gather uses
`return_exceptions=True` (exceptions captured as values). -/
structure CompEnv where
  gameDoc : Except String GameDoc
  pitcherInfo : PitcherDetails
  teamSummary : Option Int → Nat → Except String Summary
  playerStats : Int → Except String PStats
  h2h : Int → Int → Except String (Option H2HStats)

/-- One team block of `comparison_data.game_info`. -/
structure CompTeamInfo where
  id : Option Int
  name : String
  record : String
  lineup : List (LineupEntry × H2HRes)
  deriving DecidableEq, Inhabited

/-- One pitcher block of `comparison_data.game_info`. -/
structure CompPitcher where
  id : Option Int
  name : String
  hand : String
  season_era : String
  deriving DecidableEq, Inhabited

/-- `comparison_data.game_info`. -/
structure CompGameInfo where
  game_id : Int
  game_datetime : Option String
  status : String
  venue : String
  away_team : CompTeamInfo
  home_team : CompTeamInfo
  away_pitcher : CompPitcher
  home_pitcher : CompPitcher
  deriving DecidableEq, Inhabited

/-- `comparison_data.team_comparison`. -/
structure TeamComparisonBlock where
  lookback_games : Nat
  away : Summary
  home : Summary
  deriving DecidableEq, Inhabited

/-- `comparison_data`. -/
structure ComparisonData where
  game_info : CompGameInfo
  team_comparison : TeamComparisonBlock
  deriving DecidableEq, Inhabited

/-- The value returned past the orchestrator boundary: the comparison
dict, or the single `{"error": ...}` dict built by the top-level
handler. -/
inductive CompResult
  | ok (d : ComparisonData)
  | error (msg : String)
  deriving DecidableEq

/-- The top-level handler's error payload
(`f"Failed to generate comparison for game {game_id}: {e}"`). -/
def compErrMsg (gameId : Int) : String :=
  s!"Failed to generate comparison for game {gameId}"

/-- The H2H join for one lineup against the opposing probable pitcher:
a lookup is launched only when that pitcher id is truthy and the player
id is truthy; a captured exception becomes a per-player error marker, a
`None` blob becomes `"Fetch/Parse Failed"`, and players without a
launched task get the `{"PA": "N/A"}` default. -/
def attachH2H (env : CompEnv) (lineup : List LineupEntry) (oppPitcherId : Option Int) :
    List (LineupEntry × H2HRes) :=
  lineup.map (fun p =>
    if truthyId oppPitcherId && decide (p.id ≠ 0) then
      match env.h2h p.id (oppPitcherId.getD 0) with
      | .error e => (p, H2HRes.fetchError e)
      | .ok none => (p, H2HRes.fetchError "Fetch/Parse Failed")
      | .ok (some h) => (p, H2HRes.stats h)
    else (p, H2HRes.defaultNA))

/-- `get_game_comparison(game_id, lookback_games)` (lines 36-210).
When either team's extracted lineup is `None`, the source iterates that
`None` (`for i, player in enumerate(away_lineup)` /
`for player in away_lineup`), which raises `TypeError`; the top-level
handler turns that — like any other raised exception, including a failed
document fetch — into the single error dict. -/
def get_game_comparison (env : CompEnv) (gameId : Int) (lookbackGames : Nat) : CompResult :=
  match env.gameDoc with
  | .error _ => .error (compErrMsg gameId)
  | .ok raw =>
    let gameData := raw.gameData.getD default
    let liveData := raw.liveData.getD default
    let boxscoreData := liveData.boxscore
    let awayTeamInfo := gameData.away
    let homeTeamInfo := gameData.home
    let aw := awayTeamInfo.recordWins.getD 0
    let al := awayTeamInfo.recordLosses.getD 0
    let hw := homeTeamInfo.recordWins.getD 0
    let hl := homeTeamInfo.recordLosses.getD 0
    let awayRecordStr := s!"{aw}-{al}"
    let homeRecordStr := s!"{hw}-{hl}"
    let pd := env.pitcherInfo
    let awayLineup := extract_lineup boxscoreData .away
    let homeLineup := extract_lineup boxscoreData .home
    match awayLineup, homeLineup with
    | some aL, some hL =>
      let awaySummary :=
        match env.teamSummary awayTeamInfo.id lookbackGames with
        | .ok s => s
        | .error e => errorSummary e
      let homeSummary :=
        match env.teamSummary homeTeamInfo.id lookbackGames with
        | .ok s => s
        | .error e => errorSummary e
      let awayPitcherData : Except String PStats :=
        if truthyId pd.awayPitcherID then env.playerStats (pd.awayPitcherID.getD 0)
        else .error "TBD/Missing ID"
      let homePitcherData : Except String PStats :=
        if truthyId pd.homePitcherID then env.playerStats (pd.homePitcherID.getD 0)
        else .error "TBD/Missing ID"
      .ok {
        game_info := {
          game_id := gameId
          game_datetime := gameData.officialDate.orElse (fun _ => gameData.dateTime)
          status := gameData.abstractGameState.getD "Unknown"
          venue := gameData.venueName.getD "TBD"
          away_team := {
            id := awayTeamInfo.id
            name := teamNameD awayTeamInfo.id (awayTeamInfo.name.getD "TBD")
            record := awayRecordStr
            lineup := attachH2H env aL pd.homePitcherID }
          home_team := {
            id := homeTeamInfo.id
            name := teamNameD homeTeamInfo.id (homeTeamInfo.name.getD "TBD")
            record := homeRecordStr
            lineup := attachH2H env hL pd.awayPitcherID }
          away_pitcher := {
            id := pd.awayPitcherID
            name := pd.awayPitcherName.getD "TBD"
            hand := pd.awayPitcherHand.getD "TBD"
            season_era := get_era_from_data awayPitcherData }
          home_pitcher := {
            id := pd.homePitcherID
            name := pd.homePitcherName.getD "TBD"
            hand := pd.homePitcherHand.getD "TBD"
            season_era := get_era_from_data homePitcherData } }
        team_comparison := {
          lookback_games := lookbackGames
          away := awaySummary
          home := homeSummary } }
    | _, _ => .error (compErrMsg gameId)

/-! ## Team-stats route (`app/api/schedule.py`, lines 27-35) -/

/-- The parameter names accepted by `get_team_stats_summary` as defined
in `app/services/game_service.py` (line 86). -/
def get_team_stats_summary_param_names : List String := ["team_id", "num_games"]

/-- The keyword arguments `get_stats_batch_route` passes beyond the two
positional ones (line 30 passes `include_details=True`). -/
def route_extra_kwargs : List String := ["include_details"]

/-- Python call compatibility: every supplied keyword must name an
accepted parameter, otherwise the call raises `TypeError` before the
callee body runs. -/
def pythonCallAccepts (params kwargs : List String) : Bool :=
  kwargs.all (fun k => decide (k ∈ params))

/-- A Flask response of the route: a JSON body with a status code, or
an exception that escaped the handler (Flask then serves its own 500
error page, not the summary). -/
inductive RouteResponse
  | json (body : Summary) (status : Nat)
  | unhandledException (msg : String)
  deriving DecidableEq

/-- Python truthiness of `stats_summary.get("error")`: a present,
non-empty string. -/
def truthyError (e : Option String) : Bool :=
  match e with
  | some s => s ≠ ""
  | none => false

/-- `get_stats_batch_route(team_id, num_games)` (lines 27-35): the call
`get_team_stats_summary(team_id, num_games, include_details=True)` with
its keyword check, then — were the call accepted — the error-field test
choosing between HTTP 500 and the plain JSON summary. -/
def get_stats_batch_route (sched : SchedEnv) (fetchEnv : FetchEnv)
    (today ystart : Int) (c : GameCache) (teamId : Int) (numGames : Nat) :
    RouteResponse × GameCache :=
  if pythonCallAccepts get_team_stats_summary_param_names route_extra_kwargs then
    let sc := get_team_stats_summary sched fetchEnv today ystart c teamId numGames
    if truthyError sc.1.error then (.json sc.1 500, sc.2)
    else (.json sc.1 200, sc.2)
  else
    (.unhandledException "TypeError: get_team_stats_summary() got an unexpected keyword argument 'include_details'", c)

/-! ## Concrete fixtures used by witnesses and counterexamples -/

/-- A fully populated, valid game document (NYM at NYY, final 2-2 after
our sample innings). -/
def docA : GameDoc :=
  { gameData := some {
      pk := some 1001
      away := { id := some 121, name := some "NYM Mets",
                recordWins := some 10, recordLosses := some 5 }
      home := { id := some 147, name := some "NYY Yankees",
                recordWins := some 12, recordLosses := some 3 }
      originalDate := some "2025-05-01"
      officialDate := some "2025-05-01"
      dateTime := some "2025-05-01T23:00:00Z"
      venueName := some "Yankee Stadium"
      abstractGameState := some "Final"
      awayProbablePitcher := some { fullName := some "Away Ace", pid := some 501 }
      homeProbablePitcher := some { fullName := some "Home Ace", pid := some 502 } }
    liveData := some {
      linescore := some {
        innings := [{ away := some 0, home := some 0 }, { away := some 1, home := some 0 },
                    { away := some 0, home := some 2 }, { away := some 0, home := some 0 },
                    { away := some 1, home := some 0 }]
        teams := { awayRuns := some 2, homeRuns := some 2 } }
      boxscore := none } }

/-- A schedule environment with no games at all. -/
def schedEmptyEnv : SchedEnv := fun _ _ => .ok []

/-- A fetch environment where every game resolves to `docA`. -/
def fetchOkEnv : FetchEnv := fun _ => .ok (some docA)

/-- A fetch environment where fetching game 2 raises and every other
game succeeds. -/
def fetchEnvC2 : FetchEnv := fun gid =>
  if gid = 2 then .error "boom" else .ok (some docA)

/-- A schedule environment for the span counterexample: the chunk
starting at day 7 raises, every other chunk returns one game. -/
def schedEnvC4 : SchedEnv := fun s _ =>
  if s = 7 then .error "API down"
  else .ok [{ game_id := some 2001, status := some "Final", game_type := some "R",
              game_datetime := "2025-04-01T20:00:00Z" }]

/-- A schedule environment returning one completed regular-season game
and one game still in progress, for every requested range. -/
def schedEnvC6 : SchedEnv := fun _ _ =>
  .ok [{ game_id := some 1001, status := some "Final", game_type := some "R",
         game_datetime := "2025-05-01T23:00:00Z" },
       { game_id := some 1002, status := some "In Progress", game_type := some "R",
         game_datetime := "2025-05-02T23:00:00Z" }]

/-- A game document whose away boxscore carries no batting order (empty
lineup) while the home side has one posted. -/
def docC3 : GameDoc :=
  { gameData := docA.gameData
    liveData := some {
      linescore := (docA.liveData.getD default).linescore
      boxscore := some {
        away := some { battingOrder := [], players := [] }
        home := some { battingOrder := [10],
                       players := [(10, { fullName := some "Aaron Judge",
                                          positionAbbreviation := some "RF",
                                          battingAvg := some ".310" })] } } } }

/-- A comparison environment delivering `docC3` with every downstream
task succeeding. -/
def compEnvC3 : CompEnv :=
  { gameDoc := .ok docC3
    pitcherInfo := { awayPitcherID := some 501, homePitcherID := some 502,
                     awayPitcherName := some "Away Ace", homePitcherName := some "Home Ace",
                     awayPitcherHand := some "R", homePitcherHand := some "L" }
    teamSummary := fun _ _ => .ok emptySummary
    playerStats := fun _ => .ok { pitchingSeason := some { era := some "3.21" }, seasonStats := none }
    h2h := fun _ _ => .ok (some { pa := some 12 }) }

/-- The four-game win-percentage fixture: three decided games and the
tied game `mlTieGame` (team 147 wins two of the decided three). -/
def mlTieGame : MLGameRaw :=
  { home_id := some 147, away_id := some 121, home_total := some 2, away_total := some 2 }

/-- The three decided games of the C8 fixture. -/
def mlDecidedGames : List MLGameRaw :=
  [{ home_id := some 147, away_id := some 121, home_total := some 3, away_total := some 1 },
   { home_id := some 113, away_id := some 147, home_total := some 0, away_total := some 4 },
   { home_id := some 147, away_id := some 118, home_total := some 1, away_total := some 5 }]

/-- The membership predicate behind the C6 claim: the id belongs to a
game some requested range of the environment returned, and that game
passed the completed-R/S filter. -/
def SourcedCompleted (env : SchedEnv) (gid : Int) : Prop :=
  ∃ s e chunk g, env s e = .ok chunk ∧ g ∈ chunk ∧
    g.game_id = some gid ∧ isCompletedRS g = true

/-! ## Helper lemmas -/

/-- The win/valid accumulator of `calculate_win_percentage` is additive
in its starting value. -/
theorem winLoop_shift (teamId : Int) (acc : Nat × Nat) (l : List MLGameRaw) :
    winLoop teamId acc l =
      ((winLoop teamId (0, 0) l).1 + acc.1, (winLoop teamId (0, 0) l).2 + acc.2) := by
  induction l generalizing acc with
  | nil => simp [winLoop]
  | cons g rest ih =>
    by_cases hv : mlValid g = true
    · simp only [winLoop, hv, if_pos]
      rw [ih, ih ((0 : Nat) + _, 0 + 1)]
      simp only [Prod.ext_iff]
      constructor <;> simp <;> omega
    · simp only [winLoop, hv]
      simp only [Bool.false_eq_true, if_false]
      exact ih acc

theorem length_insertDescBy {α : Type} (key : α → String) (x : α) (l : List α) :
    (insertDescBy key x l).length = l.length + 1 := by
  induction l with
  | nil => rfl
  | cons y ys ih => by_cases h : key y < key x <;> simp [insertDescBy, h, ih]

theorem length_sortDescBy {α : Type} (key : α → String) (l : List α) :
    (sortDescBy key l).length = l.length := by
  induction l with
  | nil => rfl
  | cons x xs ih => simp [sortDescBy, length_insertDescBy, ih]

theorem mem_insertDescBy {α : Type} (key : α → String) (x y : α) (l : List α) :
    y ∈ insertDescBy key x l ↔ y = x ∨ y ∈ l := by
  induction l with
  | nil => simp [insertDescBy]
  | cons z zs ih =>
    by_cases h : key z < key x
    · simp [insertDescBy, h]
    · simp [insertDescBy, h, ih]
      tauto

theorem mem_sortDescBy {α : Type} (key : α → String) (y : α) (l : List α) :
    y ∈ sortDescBy key l ↔ y ∈ l := by
  induction l with
  | nil => simp [sortDescBy]
  | cons x xs ih => simp [sortDescBy, mem_insertDescBy, ih]

theorem length_filterMap_eq_countP {α β : Type} (f : α → Option β) (l : List α) :
    (l.filterMap f).length = l.countP (fun a => (f a).isSome) := by
  induction l with
  | nil => rfl
  | cons a as ih =>
    cases h : f a <;>
      simp [List.filterMap_cons, h, List.countP_cons, ih]

/-! ## C8 — win-percentage tie handling -/

/-- **C8**: in `calculate_win_percentage`, a key-complete game whose F5
home total equals its F5 away total increments `valid_games` (the
denominator) but neither team's win count, for every team id and every
remaining result list; the returned percentage is therefore computed
over the full denominator including the tie. -/
theorem c8_tie_in_denominator_not_numerator
    (l : List MLGameRaw) (g : MLGameRaw) (teamId : Int)
    (hvalid : mlValid g = true) (htie : g.home_total = g.away_total) :
    (winLoop teamId (0, 0) (g :: l)).2 = (winLoop teamId (0, 0) l).2 + 1 ∧
    (winLoop teamId (0, 0) (g :: l)).1 = (winLoop teamId (0, 0) l).1 ∧
    calculate_win_percentage (g :: l) teamId =
      ((winLoop teamId (0, 0) l).1 : ℚ) / (((winLoop teamId (0, 0) l).2 : ℚ) + 1) * 100 := by
  have hruns : g.home_total.getD 0 = g.away_total.getD 0 := by rw [htie]
  have hstep : winLoop teamId (0, 0) (g :: l) =
      ((winLoop teamId (0, 0) l).1, (winLoop teamId (0, 0) l).2 + 1) := by
    simp only [winLoop, hvalid, if_pos]
    rw [hruns]
    simp only [lt_irrefl, decide_False, Bool.and_false, Bool.false_eq_true, if_false]
    rw [winLoop_shift teamId (0 + 0, 0 + 1) l]
    simp
  refine ⟨by rw [hstep], by rw [hstep], ?_⟩
  rw [calculate_win_percentage]
  simp only [List.cons_ne_self, reduceCtorEq, if_false]
  rw [hstep]
  simp only [Nat.cast_add, Nat.cast_one]
  have : 0 < (winLoop teamId (0, 0) l).2 + 1 := Nat.succ_pos _
  simp [this]

/-- Witness for C8: the concrete four-game list with one tied game —
team 147 wins 2 of the 3 decided games and the percentage is
2/4·100 = 50, i.e. computed over 4, not 3, valid games. -/
theorem c8_tie_witness :
    mlValid mlTieGame = true ∧ mlTieGame.home_total = mlTieGame.away_total ∧
    (winLoop 147 (0, 0) (mlTieGame :: mlDecidedGames)).2 = 4 ∧
    calculate_win_percentage (mlTieGame :: mlDecidedGames) 147 = 50 := by
  have h := c8_tie_in_denominator_not_numerator mlDecidedGames mlTieGame 147
    (by decide) (by decide)
  have hl : winLoop 147 (0, 0) mlDecidedGames = (2, 3) := by decide
  refine ⟨by decide, by decide, ?_, ?_⟩
  · rw [h.1, hl]
  · rw [h.2.2, hl]
    norm_num

/-! ## C5 — the team-stats route -/

/-- **C5** (code-bug evidence): for every environment and every
`team_id`/`num_games`, `get_stats_batch_route` raises `TypeError`
before any summary is produced — line 30 passes the keyword argument
`include_details=True`, which `get_team_stats_summary` (defined with
parameters `team_id, num_games` only) does not accept — so the endpoint
never returns the summary and never reaches its own error-field test,
contradicting the claimed 500-iff-error-field behaviour that the dead
code below the call clearly intends. -/
theorem c5_route_always_raises_type_error
    (sched : SchedEnv) (fetchEnv : FetchEnv) (today ystart : Int)
    (c : GameCache) (teamId : Int) (numGames : Nat) :
    pythonCallAccepts get_team_stats_summary_param_names route_extra_kwargs = false ∧
    get_stats_batch_route sched fetchEnv today ystart c teamId numGames =
      (.unhandledException
        "TypeError: get_team_stats_summary() got an unexpected keyword argument 'include_details'",
       c) := by
  constructor
  · decide
  · simp [get_stats_batch_route, pythonCallAccepts,
      get_team_stats_summary_param_names, route_extra_kwargs]

/-! ## C2 — batch fetch error behaviour -/

/-- Counterexample to **C2**: with a fetch environment where game 2
raises and games 1 and 3 succeed, `fetch_game_details_batch([1, 2, 3])`
raises (`gather` re-raises the first task exception) instead of
returning the successfully fetched documents for games 1 and 3. -/
theorem c2_counterexample :
    fetchEnvC2 1 = .ok (some docA) ∧ fetchEnvC2 3 = .ok (some docA) ∧
    fetchEnvC2 2 = .error "boom" ∧
    fetch_game_details_batch fetchEnvC2 [] [1, 2, 3] = .error "boom" ∧
    (fetch_game_details_batch fetchEnvC2 [] [1, 2, 3]).isOk = false := by
  exact ⟨rfl, rfl, rfl, rfl, rfl⟩

/-- `gatherDetails` over an appended id list: if the prefix gathers
cleanly and the suffix (run from the prefix's resulting cache) raises,
the whole gather raises that exception. -/
theorem gatherDetails_append_error (env : FetchEnv) (l2 : List Int) (e : String) :
    ∀ (l1 : List Int) (c : GameCache) (ds : List (Option GameDoc))
      (c' : GameCache) (tr : List Int),
      gatherDetails env c l1 = .ok (ds, c', tr) →
      gatherDetails env c' l2 = .error e →
      gatherDetails env c (l1 ++ l2) = .error e := by
  intro l1
  induction l1 with
  | nil =>
    intro c ds c' tr h h2
    simp only [gatherDetails] at h
    injection h with h'
    injection h' with ha hb
    injection hb with hb1 hb2
    rw [List.nil_append, hb1]
    exact h2
  | cons gid rest ih =>
    intro c ds c' tr h h2
    rw [List.cons_append]
    simp only [gatherDetails] at h ⊢
    split at h
    next e' heq => exact Except.noConfusion h
    next d c1 tr1 heq =>
      split at h
      next e' heq2 => exact Except.noConfusion h
      next ds1 c1' tr1' heq2 =>
        injection h with h'
        injection h' with ha hb
        injection hb with hb1 hb2
        have h2' : gatherDetails env c1' l2 = .error e := by rw [hb1]; exact h2
        simp only [heq, ih c1 ds1 c1' tr1' heq2 h2']

/-- **C2** (amended): a raised fetch for a non-cached game id aborts the
whole batch call with that exception — no documents at all are
returned; only a fetch that *returns* `None` is silently dropped, which
happens via the final filter on a fully successful gather. -/
theorem c2_amended_error_aborts_none_dropped :
    (∀ (env : FetchEnv) (c : GameCache) (pre post : List Int) (gid : Int) (e : String)
       (ds : List (Option GameDoc)) (c' : GameCache) (tr : List Int),
       gatherDetails env c pre = .ok (ds, c', tr) →
       cacheHas c' gid = false → env gid = .error e →
       fetch_game_details_batch env c (pre ++ gid :: post) = .error e) ∧
    (∀ (env : FetchEnv) (c : GameCache) (ids : List Int)
       (ds : List (Option GameDoc)) (c' : GameCache) (tr : List Int),
       gatherDetails env c ids = .ok (ds, c', tr) →
       fetch_game_details_batch env c ids = .ok (ds.filterMap id, c', tr)) := by
  constructor
  · intro env c pre post gid e ds c' tr hpre hmiss herr
    have hstep : fetch_single_game_details env c' gid = .error e := by
      simp [fetch_single_game_details, hmiss, herr]
    have htail : gatherDetails env c' (gid :: post) = .error e := by
      simp [gatherDetails, hstep]
    have hgather : gatherDetails env c (pre ++ gid :: post) = .error e :=
      gatherDetails_append_error env (gid :: post) e pre c ds c' tr hpre htail
    simp [fetch_game_details_batch, hgather]
  · intro env c ids ds c' tr h
    simp [fetch_game_details_batch, h]

/-- Witness for the amended C2: concretely, with game 2 raising, the
batch over `[1] ++ 2 :: [3]` raises `"boom"`, while the batch over the
error-free `[1, 3]` succeeds. -/
theorem c2_amended_witness :
    fetch_game_details_batch fetchEnvC2 [] ([1] ++ 2 :: [3]) = .error "boom" ∧
    fetch_game_details_batch fetchEnvC2 [] [1, 3] =
      .ok ([docA, docA], [(3, some docA), (1, some docA)], [1, 3]) := by
  constructor
  · exact c2_amended_error_aborts_none_dropped.1 fetchEnvC2 [] [1] [3] 2 "boom"
      [some docA] [(1, some docA)] [1] rfl rfl rfl
  · exact c2_amended_error_aborts_none_dropped.2 fetchEnvC2 [] [1, 3]
      [some docA, some docA] [(3, some docA), (1, some docA)] [1, 3] rfl

/-! ## C3 — lineup fallback -/

/-- Counterexample to **C3**: for the concrete game document `docC3`,
whose away boxscore carries no batting order, `_extract_lineup` returns
`None`, no fallback to a previous game's lineup is attempted (the code
has none), no lineup-status value exists anywhere in the result, and
`get_game_comparison` does *not* return its other data: iterating the
`None` lineup raises `TypeError`, so the whole comparison degrades to
the single top-level error dict. -/
theorem c3_counterexample :
    extract_lineup ((docC3.liveData.getD default).boxscore) Side.away = none ∧
    get_game_comparison compEnvC3 42 10 = .error (compErrMsg 42) := by
  exact ⟨rfl, rfl⟩

/-- **C3** (amended): when a team's boxscore carries no batting order,
`_extract_lineup` yields `None`; `get_game_comparison` has no fallback
lineup fetch and no lineup-status field — with either team's lineup
`None` the source raises while iterating it and the top-level handler
returns the single error dict instead of the comparison's other data. -/
theorem c3_amended_no_lineup_degrades_to_error :
    (∀ (box : Option Boxscore) (side : Side),
       ((box.bind fun b => match side with | .away => b.away | .home => b.home).getD
         { battingOrder := [], players := [] }).battingOrder = [] →
       extract_lineup box side = none) ∧
    (∀ (env : CompEnv) (gameId : Int) (lookbackGames : Nat) (raw : GameDoc),
       env.gameDoc = .ok raw →
       (extract_lineup (raw.liveData.getD default).boxscore .away = none ∨
        extract_lineup (raw.liveData.getD default).boxscore .home = none) →
       get_game_comparison env gameId lookbackGames = .error (compErrMsg gameId)) := by
  constructor
  · intro box side h
    simp [extract_lineup, h]
  · intro env gameId lookbackGames raw hdoc hnone
    cases hA : extract_lineup (raw.liveData.getD default).boxscore .away with
    | none =>
      simp only [get_game_comparison, hdoc]
      cases hH : extract_lineup (raw.liveData.getD default).boxscore .home <;>
        simp [hA, hH]
    | some aL =>
      cases hH : extract_lineup (raw.liveData.getD default).boxscore .home with
      | none =>
        simp only [get_game_comparison, hdoc]
        simp [hA, hH]
      | some hL =>
        rcases hnone with h | h
        · rw [hA] at h; exact Option.noConfusion h
        · rw [hH] at h; exact Option.noConfusion h

/-- Witness for the amended C3: applied to the concrete environment
`compEnvC3` — away batting order empty, home lineup posted — the
comparison is the top-level error dict. -/
theorem c3_amended_witness :
    extract_lineup ((docC3.liveData.getD default).boxscore) Side.home =
      some [{ id := 10, name := "Aaron Judge", position := "RF", avg := ".310" }] ∧
    get_game_comparison compEnvC3 7 10 = .error (compErrMsg 7) := by
  constructor
  · rfl
  · exact c3_amended_no_lineup_degrades_to_error.2 compEnvC3 7 10 docC3 rfl
      (Or.inl (c3_amended_no_lineup_degrades_to_error.1
        ((docC3.liveData.getD default).boxscore) Side.away rfl))

/-! ## C1 — empty sample gives the all-zero summary -/

/-- **C1**: whenever the underlying sample is empty — no completed game
ids resolved, or no fetched document passing the validity gate —
`get_team_stats_summary` returns the summary whose five percentage
fields are all `0.0` and whose `games_analyzed` is `0`, with no `error`
field.  The embedding is total (nothing raises) and every division in
it is guarded by a zero test, so no division by zero is reachable. -/
theorem c1_empty_sample_all_zero
    (sched : SchedEnv) (fetchEnv : FetchEnv) (today ystart : Int)
    (c : GameCache) (teamId : Int) (numGames : Nat)
    (h : (fetch_last_n_completed_game_ids sched teamId today ystart numGames).ids = [] ∨
         ∃ ds c' tr,
           fetch_game_details_batch fetchEnv c
             (fetch_last_n_completed_game_ids sched teamId today ystart numGames).ids =
             .ok (ds, c', tr) ∧ ds.filter validDoc = []) :
    (get_team_stats_summary sched fetchEnv today ystart c teamId numGames).1 = emptySummary ∧
    (get_team_stats_summary sched fetchEnv today ystart c teamId numGames).1.nrfi = 0 ∧
    (get_team_stats_summary sched fetchEnv today ystart c teamId numGames).1.game_nrfi_percentage = 0 ∧
    (get_team_stats_summary sched fetchEnv today ystart c teamId numGames).1.win_percentage_f5 = 0 ∧
    (get_team_stats_summary sched fetchEnv today ystart c teamId numGames).1.over1_5F5 = 0 ∧
    (get_team_stats_summary sched fetchEnv today ystart c teamId numGames).1.over2_5F5 = 0 ∧
    (get_team_stats_summary sched fetchEnv today ystart c teamId numGames).1.games_analyzed = 0 ∧
    (get_team_stats_summary sched fetchEnv today ystart c teamId numGames).1.error = none := by
  have hmain : (get_team_stats_summary sched fetchEnv today ystart c teamId numGames).1 =
      emptySummary := by
    rcases h with h | ⟨ds, c', tr, heq, hfil⟩
    · simp [get_team_stats_summary, h]
    · by_cases hids :
        (fetch_last_n_completed_game_ids sched teamId today ystart numGames).ids = []
      · simp [get_team_stats_summary, hids]
      · simp [get_team_stats_summary, hids, heq, hfil]
  rw [hmain]
  exact ⟨rfl, rfl, rfl, rfl, rfl, rfl, rfl, rfl⟩

/-- Witness for C1: the concrete environment with no scheduled games at
all resolves zero game ids, and the summary is the all-zero one. -/
theorem c1_witness :
    (fetch_last_n_completed_game_ids schedEmptyEnv 147 3 0 5).ids = [] ∧
    (get_team_stats_summary schedEmptyEnv fetchOkEnv 3 0 [] 147 5).1 = emptySummary := by
  have hids : (fetch_last_n_completed_game_ids schedEmptyEnv 147 3 0 5).ids = [] := by decide
  exact ⟨hids,
    (c1_empty_sample_all_zero schedEmptyEnv fetchOkEnv 3 0 [] 147 5 (Or.inl hids)).1⟩

/-! ## C10 — results length equals games_analyzed -/

/-- Every aggregation-loop skip/keep decision contributes symmetrically:
the processed count is the number of documents `processGame` keeps. -/
theorem summarizeDocs_counts (docs : List GameDoc) (teamId : Int) :
    (summarizeDocs docs teamId).games_analyzed =
      (docs.filterMap (processGame teamId)).length ∧
    (summarizeDocs docs teamId).results.length =
      (docs.filterMap (processGame teamId)).length := by
  constructor
  · rfl
  · show (sortResultsByDateDesc ((docs.filterMap (processGame teamId)).map (·.detail))).length = _
    rw [sortResultsByDateDesc, length_sortDescBy, List.length_map]

/-- **C10**: on every return path of `get_team_stats_summary` — the two
empty-sample early returns, the success path, and the top-level
exception handler — the length of the `results` list equals
`games_analyzed`; and within the aggregation, a document contributes
one detailed result entry and one `games_analyzed` increment exactly
when the per-game processing keeps it (`processGame` yields `some`,
i.e. the document survives every skip check), and contributes neither
otherwise. -/
theorem c10_results_length_eq_games_analyzed :
    (∀ (sched : SchedEnv) (fetchEnv : FetchEnv) (today ystart : Int)
       (c : GameCache) (teamId : Int) (numGames : Nat),
       (get_team_stats_summary sched fetchEnv today ystart c teamId numGames).1.results.length =
       (get_team_stats_summary sched fetchEnv today ystart c teamId numGames).1.games_analyzed) ∧
    (∀ (docs : List GameDoc) (teamId : Int),
       (summarizeDocs docs teamId).games_analyzed =
         docs.countP (fun g => (processGame teamId g).isSome) ∧
       (summarizeDocs docs teamId).results.length =
         (summarizeDocs docs teamId).games_analyzed) := by
  constructor
  · intro sched fetchEnv today ystart c teamId numGames
    by_cases hids :
      (fetch_last_n_completed_game_ids sched teamId today ystart numGames).ids = []
    · simp [get_team_stats_summary, hids, emptySummary]
    · cases hb : fetch_game_details_batch fetchEnv c
        (fetch_last_n_completed_game_ids sched teamId today ystart numGames).ids with
      | error e =>
        simp [get_team_stats_summary, hids, hb, errorSummary, emptySummary]
      | ok out =>
        obtain ⟨ds, c', tr⟩ := out
        by_cases hfil : ds.filter validDoc = []
        · simp [get_team_stats_summary, hids, hb, hfil, emptySummary]
        · have := summarizeDocs_counts (ds.filter validDoc) teamId
          simp [get_team_stats_summary, hids, hb, hfil, this.1, this.2]
  · intro docs teamId
    refine ⟨?_, ?_⟩
    · rw [(summarizeDocs_counts docs teamId).1, length_filterMap_eq_countP]
    · rw [(summarizeDocs_counts docs teamId).2, (summarizeDocs_counts docs teamId).1]

/-! ## C7 — second batch call served from cache -/

/-- `fetch_single_game_details` leaves the looked-up id in the cache
with exactly the returned value, and never disturbs existing entries. -/
theorem fetch_single_cache_facts (env : FetchEnv) (c : GameCache) (gid : Int)
    (d : Option GameDoc) (c' : GameCache) (tr : List Int)
    (h : fetch_single_game_details env c gid = .ok (d, c', tr)) :
    List.lookup gid c' = some d ∧
    (∀ k v, List.lookup k c = some v → List.lookup k c' = some v) := by
  by_cases hc : cacheHas c gid = true
  · rw [fetch_single_game_details, if_pos hc] at h
    injection h with h'
    injection h' with ha hb
    injection hb with hb1 hb2
    subst hb1
    constructor
    · rw [← ha]
      unfold cacheGet
      unfold cacheHas at hc
      cases hl : List.lookup gid c with
      | none => rw [hl] at hc; simp at hc
      | some v => rfl
    · intro k v hv; exact hv
  · rw [fetch_single_game_details, if_neg hc] at h
    cases he : env gid with
    | error e => rw [he] at h; exact Except.noConfusion h
    | ok d0 =>
      rw [he] at h
      injection h with h'
      injection h' with ha hb
      injection hb with hb1 hb2
      subst hb1
      constructor
      · rw [← ha]
        simp [cachePut, List.lookup]
      · intro k v hv
        simp only [cachePut, List.lookup]
        by_cases hk : k = gid
        · subst hk
          unfold cacheHas at hc
          rw [hv] at hc
          simp at hc
        · simp [beq_false_of_ne hk, hv]

/-- A successful gather only ever adds cache entries: every lookup that
succeeded before still returns the same value afterwards. -/
theorem gatherDetails_cache_mono (env : FetchEnv) :
    ∀ (ids : List Int) (c : GameCache) (ds : List (Option GameDoc))
      (c' : GameCache) (tr : List Int),
      gatherDetails env c ids = .ok (ds, c', tr) →
      ∀ k v, List.lookup k c = some v → List.lookup k c' = some v := by
  intro ids
  induction ids with
  | nil =>
    intro c ds c' tr h k v hv
    simp only [gatherDetails] at h
    injection h with h'
    injection h' with ha hb
    injection hb with hb1 hb2
    rw [← hb1]
    exact hv
  | cons gid rest ih =>
    intro c ds c' tr h k v hv
    simp only [gatherDetails] at h
    split at h
    next e heq => exact Except.noConfusion h
    next d c1 tr1 heq =>
      split at h
      next e heq2 => exact Except.noConfusion h
      next ds1 c1' tr1' heq2 =>
        injection h with h'
        injection h' with ha hb
        injection hb with hb1 hb2
        rw [← hb1]
        exact ih c1 ds1 c1' tr1' heq2 k v
          ((fetch_single_cache_facts env c gid d c1 tr1 heq).2 k v hv)

/-- After a successful gather, re-gathering the same ids from the
resulting cache returns the same values, the unchanged cache, and an
empty remote-fetch trace. -/
theorem gatherDetails_idem (env : FetchEnv) :
    ∀ (ids : List Int) (c : GameCache) (ds : List (Option GameDoc))
      (c' : GameCache) (tr : List Int),
      gatherDetails env c ids = .ok (ds, c', tr) →
      gatherDetails env c' ids = .ok (ds, c', []) := by
  intro ids
  induction ids with
  | nil =>
    intro c ds c' tr h
    simp only [gatherDetails] at h ⊢
    injection h with h'
    injection h' with ha hb
    injection hb with hb1 hb2
    rw [← ha]
  | cons gid rest ih =>
    intro c ds c' tr h
    simp only [gatherDetails] at h ⊢
    split at h
    next e heq => exact Except.noConfusion h
    next d c1 tr1 heq =>
      split at h
      next e heq2 => exact Except.noConfusion h
      next ds1 c1' tr1' heq2 =>
        injection h with h'
        injection h' with ha hb
        injection hb with hb1 hb2
        subst hb1
        have hlook1 : List.lookup gid c1 = some d :=
          (fetch_single_cache_facts env c gid d c1 tr1 heq).1
        have hlook : List.lookup gid c1' = some d :=
          gatherDetails_cache_mono env rest c1 ds1 c1' tr1' heq2 gid d hlook1
        have hhit : cacheHas c1' gid = true := by
          unfold cacheHas; rw [hlook]; rfl
        have hsingle : fetch_single_game_details env c1' gid = .ok (d, c1', []) := by
          rw [fetch_single_game_details, if_pos hhit]
          unfold cacheGet
          rw [hlook]
          rfl
        have hrest : gatherDetails env c1' rest = .ok (ds1, c1', []) :=
          ih c1 ds1 c1' tr1' heq2
        simp [hsingle, hrest, ← ha]

/-- **C7**: calling `fetch_game_details_batch` a second time with the
same identifier list returns the identical documents — every id was
written to the memo cache by the first call, so every
`fetch_single_game_details` hits the cache, the cache is unchanged and
the remote-fetch trace of the second call is empty (no second remote
call is issued). -/
theorem c7_second_batch_call_cached (env : FetchEnv) (c : GameCache)
    (gameIds : List Int) (docs : List GameDoc) (c' : GameCache) (tr : List Int)
    (h : fetch_game_details_batch env c gameIds = .ok (docs, c', tr)) :
    fetch_game_details_batch env c' gameIds = .ok (docs, c', []) := by
  rw [fetch_game_details_batch] at h ⊢
  cases hg : gatherDetails env c gameIds with
  | error e => rw [hg] at h; exact Except.noConfusion h
  | ok out =>
    obtain ⟨ds, c1, tr1⟩ := out
    rw [hg] at h
    injection h with h'
    injection h' with ha hb
    injection hb with hb1 hb2
    subst hb1
    simp [gatherDetails_idem env gameIds c ds c1 tr1 hg, ha]

/-- Witness for C7: batching `[1, 2]` from the empty cache fetches both
remotely; re-batching from the resulting cache returns the same
documents with no remote fetch. -/
theorem c7_witness :
    fetch_game_details_batch fetchOkEnv [] [1, 2] =
      .ok ([docA, docA], [(2, some docA), (1, some docA)], [1, 2]) ∧
    fetch_game_details_batch fetchOkEnv [(2, some docA), (1, some docA)] [1, 2] =
      .ok ([docA, docA], [(2, some docA), (1, some docA)], []) := by
  have h1 : fetch_game_details_batch fetchOkEnv [] [1, 2] =
      .ok ([docA, docA], [(2, some docA), (1, some docA)], [1, 2]) := rfl
  exact ⟨h1, c7_second_batch_call_cached fetchOkEnv [] [1, 2] [docA, docA]
    [(2, some docA), (1, some docA)] [1, 2] h1⟩

/-! ## C4 — chunk errors during window resolution -/

/-- If any chunk's schedule request raises, the gather over the chunk
tasks raises. -/
theorem gatherChunks_isError (env : SchedEnv) :
    ∀ (chunks : List (Int × Int)),
      (∃ ch ∈ chunks, ∃ e, env ch.1 ch.2 = .error e) →
      ∃ e', gatherChunks env chunks = .error e' := by
  intro chunks
  induction chunks with
  | nil => rintro ⟨ch, hch, _⟩; exact absurd hch (List.not_mem_nil ch)
  | cons ch0 rest ih =>
    rintro ⟨ch, hch, e, he⟩
    cases henv : env ch0.1 ch0.2 with
    | error e0 =>
      exact ⟨e0, by simp [gatherChunks, henv]⟩
    | ok gs =>
      rcases List.mem_cons.1 hch with rfl | hmem
      · rw [henv] at he; exact absurd he (by simp)
      · obtain ⟨e', he'⟩ := ih ⟨ch, hmem, e, he⟩
        exact ⟨e', by simp [gatherChunks, henv, he']⟩

/-- Counterexample to **C4** (span mode): with two 5-day chunks and the
second chunk's request raising, `fetch_and_cache_game_ids_span` raises
instead of returning the game gathered by the first chunk. -/
theorem c4_counterexample :
    chunkDates 9 2 = [(2, 6), (7, 9)] ∧
    (∃ g, schedEnvC4 2 6 = .ok [g] ∧ g.game_id = some 2001) ∧
    schedEnvC4 7 9 = .error "API down" ∧
    fetch_and_cache_game_ids_span schedEnvC4 [] 147 (some 7) 10 = .error "API down" := by
  refine ⟨rfl, ⟨_, rfl, rfl⟩, rfl, rfl⟩

/-- **C4** (amended): the two modes do not behave as claimed.  In span
mode a raised chunk request propagates out of the gather and aborts the
whole resolution (no ids at all are returned); in last-N mode a raised
chunk request is swallowed but terminates the backward walk, which
returns only the games accumulated from the chunks requested before the
failure. -/
theorem c4_amended_chunk_error_behaviour :
    (∀ (env : SchedEnv) (cache : ScheduleCache) (teamId : Int) (n : Int) (today : Int),
       List.lookup (teamId, some n) cache = none →
       (∃ ch ∈ chunkDates (today - 1) (today - 1 - n), ∃ e, env ch.1 ch.2 = .error e) →
       ∃ e', fetch_and_cache_game_ids_span env cache teamId (some n) today = .error e') ∧
    (∀ (env : SchedEnv) (ystart : Int) (numGames : Nat) (fuel : Nat) (s : WalkState)
       (e : String),
       s.completed.length < numGames → ystart ≤ s.endDate →
       ¬(max (s.endDate - (15 - 1)) ystart = s.endDate ∧ s.totalDaysChecked > 0) →
       env (max (s.endDate - (15 - 1)) ystart) s.endDate = .error e →
       walkAux env ystart numGames (fuel + 1) s =
         { ids := finalizeWalk numGames s,
           ranges := [(max (s.endDate - (15 - 1)) ystart, s.endDate)] }) := by
  constructor
  · intro env cache teamId n today hmiss herr
    obtain ⟨e', he'⟩ := gatherChunks_isError env (chunkDates (today - 1) (today - 1 - n)) herr
    exact ⟨e', by simp [fetch_and_cache_game_ids_span, hmiss, he']⟩
  · intro env ystart numGames fuel s e h1 h2 h3 h4
    simp only [walkAux, if_pos (And.intro h1 h2)]
    simp only [if_neg h3, h4]

/-- Witness for the amended C4: the concrete failing-chunk environment
exercises both conclusions — the span resolution raises, and one walk
step with a raising request returns the (empty) accumulation. -/
theorem c4_amended_witness :
    (∃ e', fetch_and_cache_game_ids_span schedEnvC4 [] 147 (some 7) 10 = .error e') ∧
    walkAux schedEnvC4 0 5 3 { completed := [], endDate := 21, totalDaysChecked := 0 } =
      { ids := [], ranges := [(7, 21)] } := by
  constructor
  · exact c4_amended_chunk_error_behaviour.1 schedEnvC4 [] 147 7 10 rfl
      ⟨(7, 9), by decide, "API down", rfl⟩
  · have h := c4_amended_chunk_error_behaviour.2 schedEnvC4 0 5 2
      { completed := [], endDate := 21, totalDaysChecked := 0 } "API down"
      (by decide) (by decide) (by decide) rfl
    simpa using h

/-! ## C6 — last-N resolution is bounded and terminal-only -/

/-- A game passing the completed-R/S filter has a real (truthy) id. -/
theorem isCompletedRS_game_id (g : SchedGame) (h : isCompletedRS g = true) :
    g.game_id = some (g.game_id.getD 0) := by
  cases hgid : g.game_id with
  | none => rw [isCompletedRS, hgid] at h; simp [truthyId] at h
  | some v => rfl

/-- Everything the chunk accumulation adds comes from a chunk game that
passed the completed-R/S filter. -/
theorem mem_accumChunk (chunk : List SchedGame) :
    ∀ (completed : List (Int × String)) (p : Int × String),
      p ∈ accumChunk completed chunk →
      p ∈ completed ∨
        ∃ g ∈ chunk, isCompletedRS g = true ∧ p = (g.game_id.getD 0, g.game_datetime) := by
  induction chunk with
  | nil => intro completed p h; exact Or.inl h
  | cons g rest ih =>
    intro completed p h
    simp only [accumChunk] at h
    by_cases hc :
      (isCompletedRS g && decide ((g.game_id.getD 0) ∉ completed.map (·.1))) = true
    · rw [if_pos hc] at h
      rcases ih _ p h with hmem | ⟨g', hg', hrs, hp⟩
      · rcases List.mem_append.1 hmem with h1 | h1
        · exact Or.inl h1
        · have hrs : isCompletedRS g = true := by
            rw [Bool.and_eq_true] at hc; exact hc.1
          have hp : p = (g.game_id.getD 0, g.game_datetime) := by
            simpa using h1
          exact Or.inr ⟨g, List.mem_cons_self g rest, hrs, hp⟩
      · exact Or.inr ⟨g', List.mem_cons_of_mem g hg', hrs, hp⟩
    · rw [if_neg hc] at h
      rcases ih completed p h with h1 | ⟨g', hg', hrs, hp⟩
      · exact Or.inl h1
      · exact Or.inr ⟨g', List.mem_cons_of_mem g hg', hrs, hp⟩

/-- Every id in the finalized return list comes from the accumulated
completed list. -/
theorem finalizeWalk_sourced (env : SchedEnv) (numGames : Nat) (s : WalkState)
    (hinv : ∀ p ∈ s.completed, SourcedCompleted env p.1) :
    ∀ gid ∈ finalizeWalk numGames s, SourcedCompleted env gid := by
  intro gid hgid
  rw [finalizeWalk] at hgid
  obtain ⟨p, hp, rfl⟩ := List.mem_map.1 hgid
  exact hinv p (List.take_subset _ _ hp)

/-- Walk invariant: every returned id originates in some requested
chunk as a completed R/S game of the environment. -/
theorem walkAux_ids_sourced (env : SchedEnv) (ystart : Int) (numGames : Nat) :
    ∀ (fuel : Nat) (s : WalkState),
      (∀ p ∈ s.completed, SourcedCompleted env p.1) →
      ∀ gid ∈ (walkAux env ystart numGames fuel s).ids, SourcedCompleted env gid := by
  intro fuel
  induction fuel with
  | zero =>
    intro s hinv gid hgid
    simp only [walkAux] at hgid
    split at hgid
    · exact finalizeWalk_sourced env numGames s hinv gid hgid
    · exact finalizeWalk_sourced env numGames s hinv gid hgid
  | succ fuel ih =>
    intro s hinv gid hgid
    simp only [walkAux] at hgid
    split at hgid
    · -- loop condition holds: the body ran
      split at hgid
      · exact finalizeWalk_sourced env numGames s hinv gid hgid
      · -- request issued
        rename_i hcond hguard
        cases heq : env (max (s.endDate - (15 - 1)) ystart) s.endDate with
        | error e =>
          rw [heq] at hgid
          exact finalizeWalk_sourced env numGames s hinv gid hgid
        | ok chunk =>
          rw [heq] at hgid
          refine ih _ ?_ gid hgid
          intro p hp
          have hp' := (mem_sortDescBy (·.2) p (accumChunk s.completed chunk)).1 hp
          rcases mem_accumChunk chunk s.completed p hp' with hmem | ⟨g, hg, hrs, rfl⟩
          · exact hinv p hmem
          · exact ⟨max (s.endDate - (15 - 1)) ystart, s.endDate, chunk, g, heq, hg,
              (isCompletedRS_game_id g hrs).symm ▸ rfl, hrs⟩
    · exact finalizeWalk_sourced env numGames s hinv gid hgid

/-- The walk never returns more than `numGames` ids. -/
theorem walkAux_ids_length (env : SchedEnv) (ystart : Int) (numGames : Nat) :
    ∀ (fuel : Nat) (s : WalkState),
      (walkAux env ystart numGames fuel s).ids.length ≤ numGames := by
  have hfin : ∀ s : WalkState, (finalizeWalk numGames s).length ≤ numGames := by
    intro s
    rw [finalizeWalk, List.length_map, List.length_take]
    exact min_le_left _ _
  intro fuel
  induction fuel with
  | zero =>
    intro s
    simp only [walkAux]
    split
    · exact hfin s
    · exact hfin s
  | succ fuel ih =>
    intro s
    simp only [walkAux]
    split
    · split
      · exact hfin s
      · cases heq : env (max (s.endDate - (15 - 1)) ystart) s.endDate with
        | error e => exact hfin s
        | ok chunk => exact ih _
    · exact hfin s

/-- **C6**: for every environment, team and `N`,
`fetch_last_n_completed_game_ids` returns at most `N` identifiers, and
every returned identifier is the id of a game some requested range
returned whose status is one of "Final" / "Game Over" /
"Completed Early" and whose game type is `'R'` or `'S'`. -/
theorem c6_last_n_bounded_and_terminal (env : SchedEnv) (teamId : Int)
    (today ystart : Int) (numGames : Nat) :
    (fetch_last_n_completed_game_ids env teamId today ystart numGames).ids.length ≤ numGames ∧
    (∀ gid ∈ (fetch_last_n_completed_game_ids env teamId today ystart numGames).ids,
       SourcedCompleted env gid) ∧
    (∀ g : SchedGame, isCompletedRS g = true →
       (∃ st, g.status = some st ∧
          (st = "Final" ∨ st = "Game Over" ∨ st = "Completed Early")) ∧
       (∃ t, g.game_type = some t ∧ (t = "R" ∨ t = "S"))) := by
  refine ⟨?_, ?_, ?_⟩
  · rw [fetch_last_n_completed_game_ids]
    split
    · simp
    · exact walkAux_ids_length env ystart numGames _ _
  · rw [fetch_last_n_completed_game_ids]
    split
    · intro gid hgid; exact absurd hgid (List.not_mem_nil gid)
    · exact walkAux_ids_sourced env ystart numGames _ _ (by intro p hp; exact absurd hp (List.not_mem_nil p))
  · intro g hg
    rw [isCompletedRS] at hg
    rw [Bool.and_eq_true, Bool.and_eq_true] at hg
    obtain ⟨⟨hst, hty⟩, hid⟩ := hg
    constructor
    · cases hs : g.status with
      | none => rw [hs] at hst; exact absurd hst (by simp)
      | some st =>
        rw [hs] at hst
        refine ⟨st, rfl, ?_⟩
        have : st ∈ terminalStatuses := by simpa using hst
        simpa [terminalStatuses] using this
    · cases ht : g.game_type with
      | none => rw [ht] at hty; exact absurd hty (by simp)
      | some t =>
        rw [ht] at hty
        exact ⟨t, rfl, by simpa using hty⟩

/-- Witness for C6: the concrete environment with one completed and one
in-progress game — the single returned id is 1001, a "Final" 'R' game a
requested range returned. -/
theorem c6_witness :
    (fetch_last_n_completed_game_ids schedEnvC6 147 3 0 1).ids.length ≤ 1 ∧
    (fetch_last_n_completed_game_ids schedEnvC6 147 3 0 1).ids = [1001] ∧
    SourcedCompleted schedEnvC6 1001 := by
  have h := c6_last_n_bounded_and_terminal schedEnvC6 147 3 0 1
  have hids : (fetch_last_n_completed_game_ids schedEnvC6 147 3 0 1).ids = [1001] := by decide
  refine ⟨h.1, hids, h.2.1 1001 ?_⟩
  rw [hids]
  exact List.mem_singleton.2 rfl

/-! ## C9 — the backward walk terminates and never re-requests -/

/-- One extra unit of fuel beyond the measure never changes the walk:
each executed iteration moves `endDate` strictly below `start`, which
is itself bounded below by `ystart`, so the measure strictly falls. -/
theorem walkAux_succ (env : SchedEnv) (ystart : Int) (numGames : Nat) :
    ∀ (fuel : Nat) (s : WalkState), walkMeasure ystart s ≤ fuel →
      walkAux env ystart numGames (fuel + 1) s = walkAux env ystart numGames fuel s := by
  intro fuel
  induction fuel with
  | zero =>
    intro s hm
    have hend : s.endDate < ystart := by
      rw [walkMeasure] at hm
      omega
    have hcond : ¬(s.completed.length < numGames ∧ ystart ≤ s.endDate) := by
      rintro ⟨_, h2⟩; omega
    simp only [walkAux, if_neg hcond]
  | succ fuel ih =>
    intro s hm
    by_cases hcond : s.completed.length < numGames ∧ ystart ≤ s.endDate
    · conv_lhs => rw [walkAux]
      conv_rhs => rw [walkAux]
      simp only [if_pos hcond]
      by_cases hguard :
        max (s.endDate - (15 - 1)) ystart = s.endDate ∧ s.totalDaysChecked > 0
      · simp only [if_pos hguard]
      · simp only [if_neg hguard]
        cases heq : env (max (s.endDate - (15 - 1)) ystart) s.endDate with
        | error e => rfl
        | ok chunk =>
          have hstart1 : ystart ≤ max (s.endDate - (15 - 1)) ystart := le_max_right _ _
          have hstart2 : max (s.endDate - (15 - 1)) ystart ≤ s.endDate :=
            max_le (by omega) hcond.2
          have hm' : walkMeasure ystart
              { completed := sortDescBy (·.2) (accumChunk s.completed chunk),
                endDate := max (s.endDate - (15 - 1)) ystart - 1,
                totalDaysChecked := s.totalDaysChecked +
                  (max (s.endDate - (15 - 1)) ystart - 1 - max (s.endDate - (15 - 1)) ystart) + 1 }
              ≤ fuel := by
            rw [walkMeasure] at hm ⊢
            simp only
            omega
          exact congrArg (fun w : WalkOut =>
            ({ ids := w.ids,
               ranges := (max (s.endDate - (15 - 1)) ystart, s.endDate) :: w.ranges } : WalkOut))
            (ih _ hm')
    · conv_lhs => rw [walkAux]
      conv_rhs => rw [walkAux]
      simp only [if_neg hcond]

/-- The walk's value is independent of the fuel once the fuel covers
the measure: the loop terminates on its own conditions for every team
and every `N`, even when no games exist at all. -/
theorem walkAux_fuel_stable (env : SchedEnv) (ystart : Int) (numGames : Nat) :
    ∀ (fuel : Nat) (s : WalkState), walkMeasure ystart s ≤ fuel →
      walkAux env ystart numGames fuel s =
        walkAux env ystart numGames (walkMeasure ystart s) s := by
  intro fuel s hm
  obtain ⟨k, hk⟩ : ∃ k, fuel = walkMeasure ystart s + k := ⟨fuel - walkMeasure ystart s, by omega⟩
  subst hk
  clear hm
  induction k with
  | zero => rfl
  | succ k ih =>
    have harith : walkMeasure ystart s + (k + 1) = (walkMeasure ystart s + k) + 1 := by omega
    rw [harith, walkAux_succ env ystart numGames (walkMeasure ystart s + k) s (by omega), ih]

/-- Every requested range sits inside `[ystart, s.endDate]` and is
well-formed (`start ≤ end`). -/
theorem walkAux_ranges_bounds (env : SchedEnv) (ystart : Int) (numGames : Nat) :
    ∀ (fuel : Nat) (s : WalkState),
      ∀ r ∈ (walkAux env ystart numGames fuel s).ranges,
        ystart ≤ r.1 ∧ r.1 ≤ r.2 ∧ r.2 ≤ s.endDate := by
  intro fuel
  induction fuel with
  | zero =>
    intro s r hr
    simp only [walkAux] at hr
    split at hr <;> exact absurd hr (List.not_mem_nil r)
  | succ fuel ih =>
    intro s r hr
    simp only [walkAux] at hr
    split at hr
    · split at hr
      · exact absurd hr (List.not_mem_nil r)
      · rename_i hcond hguard
        cases heq : env (max (s.endDate - (15 - 1)) ystart) s.endDate with
        | error e =>
          rw [heq] at hr
          have hre : r = (max (s.endDate - (15 - 1)) ystart, s.endDate) := by
            simpa using hr
          subst hre
          exact ⟨le_max_right _ _, max_le (by omega) hcond.2, le_refl _⟩
        | ok chunk =>
          rw [heq] at hr
          rcases List.mem_cons.1 hr with rfl | hmem
          · exact ⟨le_max_right _ _, max_le (by omega) hcond.2, le_refl _⟩
          · have h3 := ih _ r hmem
            have hstart2 : max (s.endDate - (15 - 1)) ystart ≤ s.endDate :=
              max_le (by omega) hcond.2
            refine ⟨h3.1, h3.2.1, ?_⟩
            have hlast : r.2 ≤ max (s.endDate - (15 - 1)) ystart - 1 := h3.2.2
            omega
    · exact absurd hr (List.not_mem_nil r)

/-- The requested ranges are listed newest-first, each strictly earlier
than all before it. -/
theorem walkAux_ranges_pairwise (env : SchedEnv) (ystart : Int) (numGames : Nat) :
    ∀ (fuel : Nat) (s : WalkState),
      List.Pairwise (fun a b => b.2 < a.1) (walkAux env ystart numGames fuel s).ranges := by
  intro fuel
  induction fuel with
  | zero =>
    intro s
    simp only [walkAux]
    split <;> exact List.Pairwise.nil
  | succ fuel ih =>
    intro s
    simp only [walkAux]
    split
    · split
      · exact List.Pairwise.nil
      · cases heq : env (max (s.endDate - (15 - 1)) ystart) s.endDate with
        | error e => exact List.pairwise_singleton _ _
        | ok chunk =>
          refine List.Pairwise.cons ?_ (ih _)
          intro b hb
          have hbound := walkAux_ranges_bounds env ystart numGames fuel _ b hb
          have hlast : b.2 ≤ max (s.endDate - (15 - 1)) ystart - 1 := hbound.2.2
          omega
    · exact List.Pairwise.nil

/-- **C9**: the backward walk of `fetch_last_n_completed_game_ids`
terminates for every team and every `N` — its fuel-indexed unfolding is
constant once the fuel covers the day distance down to the season
start, so the loop always exits by its own conditions (the window moves
strictly earlier each iteration and is bounded below by `ystart`) — and
the requested day ranges never overlap: no day is covered by two
requests. -/
theorem c9_walk_terminates_never_rerequests :
    (∀ (env : SchedEnv) (ystart : Int) (numGames : Nat) (fuel : Nat) (s : WalkState),
       walkMeasure ystart s ≤ fuel →
       walkAux env ystart numGames fuel s =
         walkAux env ystart numGames (walkMeasure ystart s) s) ∧
    (∀ (env : SchedEnv) (teamId today ystart : Int) (numGames : Nat),
       (∀ r ∈ (fetch_last_n_completed_game_ids env teamId today ystart numGames).ranges,
          ystart ≤ r.1 ∧ r.1 ≤ r.2 ∧ r.2 ≤ today) ∧
       List.Pairwise (fun a b => ∀ d : Int, b.1 ≤ d → d ≤ b.2 → ¬(a.1 ≤ d ∧ d ≤ a.2))
         (fetch_last_n_completed_game_ids env teamId today ystart numGames).ranges) := by
  constructor
  · exact fun env ystart numGames => walkAux_fuel_stable env ystart numGames
  · intro env teamId today ystart numGames
    rw [fetch_last_n_completed_game_ids]
    split
    · exact ⟨fun r hr => absurd hr (List.not_mem_nil r), List.Pairwise.nil⟩
    · constructor
      · intro r hr
        exact walkAux_ranges_bounds env ystart numGames _ _ r hr
      · refine (walkAux_ranges_pairwise env ystart numGames _ _).imp ?_
        intro a b hab d hd1 hd2 hda
        omega

/-- Witness for C9: the stabilization applied with surplus fuel at a
concrete state, and the range bounds at the one concrete range the
`schedEnvC6` walk requests. -/
theorem c9_witness :
    walkMeasure 0 { completed := [], endDate := 3, totalDaysChecked := 0 } ≤ 9 ∧
    walkAux schedEmptyEnv 0 5 9 { completed := [], endDate := 3, totalDaysChecked := 0 } =
      walkAux schedEmptyEnv 0 5
        (walkMeasure 0 { completed := [], endDate := 3, totalDaysChecked := 0 })
        { completed := [], endDate := 3, totalDaysChecked := 0 } ∧
    ((0 : Int) ≤ 0 ∧ (0 : Int) ≤ 3 ∧ (3 : Int) ≤ 3) := by
  refine ⟨by decide,
    c9_walk_terminates_never_rerequests.1 schedEmptyEnv 0 5 9 _ (by decide), ?_⟩
  exact (c9_walk_terminates_never_rerequests.2 schedEnvC6 147 3 0 5).1 (0, 3) (by decide)
